import Mathlib

/-!
Shallow embedding of `src/app.py` (student-dropout-predictor).

The embedded parts are the backend logic the specification's claims are
about: the password hash `make_hashes` (SHA-256 hex digest of the UTF-8
encoding of the password), the sqlite-backed credential store
(`create_user_table`, `add_user`, `login_user` over a `users` table with
`username TEXT PRIMARY KEY, password TEXT`), the dashboard filter pipeline
`df_viz` with the `dropout_rate` KPI, and the prediction tool's feature
vector assembly and gauge result.
-/

namespace StudentApp

/-! ## SHA-256 over `Nat`, words taken mod `2 ^ 32`
Translation of what `hashlib.sha256` computes (FIPS 180-4), so that
`make_hashes` is the actual function of `app.py` line 144-145. -/

/-- Rotate a 32-bit word (stored as a `Nat` below `2 ^ 32`) right by `n`. -/
def rotr (n x : Nat) : Nat := ((x >>> n) ||| (x <<< (32 - n))) % (2 ^ 32)

/-- Bitwise complement on 32 bits. -/
def wnot (x : Nat) : Nat := x ^^^ (2 ^ 32 - 1)

/-- SHA-256 `Ch` function. -/
def ch (x y z : Nat) : Nat := (x &&& y) ^^^ (wnot x &&& z)

/-- SHA-256 `Maj` function. -/
def maj (x y z : Nat) : Nat := (x &&& y) ^^^ (x &&& z) ^^^ (y &&& z)

/-- SHA-256 big sigma 0. -/
def bsig0 (x : Nat) : Nat := rotr 2 x ^^^ rotr 13 x ^^^ rotr 22 x

/-- SHA-256 big sigma 1. -/
def bsig1 (x : Nat) : Nat := rotr 6 x ^^^ rotr 11 x ^^^ rotr 25 x

/-- SHA-256 small sigma 0. -/
def ssig0 (x : Nat) : Nat := rotr 7 x ^^^ rotr 18 x ^^^ (x >>> 3)

/-- SHA-256 small sigma 1. -/
def ssig1 (x : Nat) : Nat := rotr 17 x ^^^ rotr 19 x ^^^ (x >>> 10)

/-- The 64 SHA-256 round constants. -/
def sha256K : List Nat :=
  [1116352408, 1899447441, 3049323471, 3921009573,
   961987163, 1508970993, 2453635748, 2870763221,
   3624381080, 310598401, 607225278, 1426881987,
   1925078388, 2162078206, 2614888103, 3248222580,
   3835390401, 4022224774, 264347078, 604807628,
   770255983, 1249150122, 1555081692, 1996064986,
   2554220882, 2821834349, 2952996808, 3210313671,
   3336571891, 3584528711, 113926993, 338241895,
   666307205, 773529912, 1294757372, 1396182291,
   1695183700, 1986661051, 2177026350, 2456956037,
   2730485921, 2820302411, 3259730800, 3345764771,
   3516065817, 3600352804, 4094571909, 275423344,
   430227734, 506948616, 659060556, 883997877,
   958139571, 1322822218, 1537002063, 1747873779,
   1955562222, 2024104815, 2227730452, 2361852424,
   2428436474, 2756734187, 3204031479, 3329325298]

/-- The SHA-256 initial hash value. -/
def sha256H0 : List Nat :=
  [1779033703, 3144134277, 1013904242, 2773480762,
   1359893119, 2600822924, 528734635, 1541459225]

/-- Pad a byte message per SHA-256: append `0x80`, zeros up to 56 mod 64,
then the bit length as 8 big-endian bytes. -/
def padMsg (m : List Nat) : List Nat :=
  let bitLen := 8 * m.length
  let zeros := List.replicate ((119 - m.length % 64) % 64) 0
  m ++ [0x80] ++ zeros ++ (List.range 8).map (fun i => (bitLen >>> (8 * (7 - i))) % 256)

/-- Split a list into chunks of 64 elements; fuel makes recursion structural. -/
def chunksAux : Nat → List Nat → List (List Nat)
  | 0, _ => []
  | _, [] => []
  | fuel + 1, l => l.take 64 :: chunksAux fuel (l.drop 64)

/-- Split a byte list into 64-byte blocks. -/
def chunks (l : List Nat) : List (List Nat) := chunksAux l.length l

/-- Group bytes into big-endian 32-bit words; fuel makes recursion structural. -/
def toWordsAux : Nat → List Nat → List Nat
  | 0, _ => []
  | fuel + 1, a :: b :: c :: d :: rest =>
      (a * 2 ^ 24 + b * 2 ^ 16 + c * 2 ^ 8 + d) :: toWordsAux fuel rest
  | _, _ => []

/-- Bytes of one 64-byte block as 16 big-endian words. -/
def toWords (block : List Nat) : List Nat := toWordsAux block.length block

/-- Extend 16 message words to the 64-word SHA-256 schedule. -/
def schedule (block : List Nat) : List Nat :=
  (List.range 48).foldl
    (fun w i =>
      w ++ [(ssig1 (w.getD (i + 14) 0) + w.getD (i + 9) 0 +
             ssig0 (w.getD (i + 1) 0) + w.getD i 0) % (2 ^ 32)])
    (toWords block)

/-- One round of the SHA-256 compression function on state `[a,b,c,d,e,f,g,h]`. -/
def roundStep (st : List Nat) (kw : Nat × Nat) : List Nat :=
  match st with
  | [a, b, c, d, e, f, g, h] =>
      let t1 := (h + bsig1 e + ch e f g + kw.1 + kw.2) % (2 ^ 32)
      let t2 := (bsig0 a + maj a b c) % (2 ^ 32)
      [(t1 + t2) % (2 ^ 32), a, b, c, (d + t1) % (2 ^ 32), e, f, g]
  | other => other

/-- Compress one 64-byte block into the running hash state. -/
def compressBlock (hs : List Nat) (block : List Nat) : List Nat :=
  let fin := (sha256K.zip (schedule block)).foldl roundStep hs
  (hs.zip fin).map (fun p => (p.1 + p.2) % (2 ^ 32))

/-- SHA-256 digest of a byte message, as eight 32-bit words. -/
def sha256Words (msg : List Nat) : List Nat :=
  (chunks (padMsg msg)).foldl compressBlock sha256H0

/-- Lowercase hexadecimal digit. -/
def hexDigit (n : Nat) : Char :=
  if n < 10 then Char.ofNat (48 + n) else Char.ofNat (87 + n)

/-- Eight lowercase hex characters of one 32-bit word, most significant first. -/
def wordHex (w : Nat) : List Char :=
  (List.range 8).map (fun i => hexDigit ((w >>> (4 * (7 - i))) % 16))

/-- Hex digest string of a word list, as `hexdigest()` renders it. -/
def hexdigest (ws : List Nat) : String := String.mk ((ws.map wordHex).flatten)

/-- UTF-8 bytes of one character, as `str.encode` produces them. -/
def utf8Char (c : Char) : List Nat :=
  let n := c.toNat
  if n < 128 then [n]
  else if n < 2048 then [192 + n / 64, 128 + n % 64]
  else if n < 65536 then [224 + n / 4096, 128 + n / 64 % 64, 128 + n % 64]
  else [240 + n / 262144, 128 + n / 4096 % 64, 128 + n / 64 % 64, 128 + n % 64]

/-- `str.encode(password)`: the UTF-8 byte sequence of a string. -/
def strEncode (s : String) : List Nat := (s.data.map utf8Char).flatten

/-- `make_hashes` (app.py 144-145):
`hashlib.sha256(str.encode(password)).hexdigest()`. -/
def make_hashes (password : String) : String :=
  hexdigest (sha256Words (strEncode password))

/-! ## Credential store
The sqlite `users` table (`username TEXT PRIMARY KEY, password TEXT`) is a
list of rows in insertion order; the `password` column stores the hash. -/

/-- One row of the `users` table: `(username, password_hash)`. -/
abbrev UserRow := String × String

/-- The `users` table contents, in rowid (insertion) order. -/
abbrev Store := List UserRow

/-- The usernames present in the store (the primary-key column). -/
def usernames (db : Store) : List String := db.map Prod.fst

/-- Database state as seen by `create_user_table`: `none` when the `users`
table does not exist yet, `some db` when it holds rows `db`. -/
abbrev DbState := Option Store

/-- `create_user_table` (app.py 147-152): `CREATE TABLE IF NOT EXISTS users...`.
Creates an empty table when absent; existing rows are untouched. -/
def create_user_table (s : DbState) : DbState := some (s.getD [])

/-- Outcome of one sqlite statement execution: `ok` when the statement
runs normally, `storageError` when the persistence layer fails for a reason
other than a duplicate primary key (disk full, locked or corrupt file, ...).
The bare `except:` in `add_user` catches either exception. -/
inductive DbFault | ok | storageError
deriving DecidableEq

/-- `add_user` (app.py 154-164): `INSERT INTO users(username, password)
VALUES (?,?)` with the hashed password, `return True` on commit; any
exception — the `IntegrityError` of a duplicate primary key or any other
persistence failure — is swallowed by the bare `except:` and yields
`return False` with the insert rolled back. Returns the flag and the store
after the call. -/
def add_user (fault : DbFault) (db : Store) (username password : String) :
    Bool × Store :=
  match fault with
  | .storageError => (false, db)
  | .ok =>
      if username ∈ usernames db then (false, db)
      else (true, db ++ [(username, make_hashes password)])

/-- `login_user` (app.py 166-172): `SELECT * FROM users WHERE username =?
AND password = ?` with the hashed password; returns `fetchall()` — the list
of matching rows — and the store after the call (the statement writes
nothing). -/
def login_user (db : Store) (username password : String) :
    List UserRow × Store :=
  (db.filter (fun r => r.1 = username ∧ r.2 = make_hashes password), db)

/-- Truthiness of the value `login_user` returns to its caller
(`if login_user(username, password):`): a Python list is truthy iff
non-empty. -/
def login_ok (db : Store) (username password : String) : Bool :=
  !(login_user db username password).1.isEmpty

/-! ## Dashboard (app.py 293-324)
One student record keeps the columns the dashboard filters and KPIs read. -/

/-- A row of the student dataset, restricted to the columns used by the
dashboard filters and the dropout-rate KPI: `Course Name`, `Nationality`,
`Previous Qualification`, `Student Status`. -/
structure Row where
  course : String
  nationality : String
  prevQual : String
  status : String
deriving DecidableEq

/-- One filter line of app.py 307-309:
`if sel: df_viz = df_viz[df_viz[col].isin(sel)]` — a non-empty selection
keeps the rows whose column value is a member of the selection, an empty
selection (falsy list) leaves the table untouched. -/
def isinFilter (sel : List String) (col : Row → String) (rows : List Row) :
    List Row :=
  if sel.isEmpty then rows else rows.filter (fun r => col r ∈ sel)

/-- `df_viz` (app.py 306-309): copy of the table with the course,
nationality and qualification filters applied in that order. -/
def df_viz (rows : List Row) (sel_courses sel_nat sel_qual : List String) :
    List Row :=
  isinFilter sel_qual Row.prevQual
    (isinFilter sel_nat Row.nationality
      (isinFilter sel_courses Row.course rows))

/-- `dropout_rate` (app.py 317):
`(df_viz['Student Status'] == 'Dropout').mean() * 100` — the mean of a
boolean column is the count of `True` divided by the row count. -/
def dropout_rate (rows : List Row) : ℚ :=
  ((rows.countP (fun r => r.status == "Dropout") : ℚ) / rows.length) * 100

/-- Rounding to one decimal place, as the f-string `f"{x:.1f}"` renders a
number (app.py 322). -/
def fmtTenths (q : ℚ) : ℚ := round (10 * q) / 10

/-- The number shown on the Dropout Rate metric card (app.py 322):
`dropout_rate` formatted to one decimal place. -/
def displayed_dropout_rate (rows : List Row) : ℚ := fmtTenths (dropout_rate rows)

/-! ## Prediction tool (app.py 453-482) -/

/-- The opaque classifier artifact: `predict` returns an array of class
labels, `predict_proba` an array of class probabilities (flattened). -/
structure PModel where
  predict : List ℚ → List Nat
  predict_proba : List ℚ → List ℚ

/-- The one-row feature vector of `input_df` (app.py 454-459): Yes/No and
Male/Female widgets encoded by `1 if x == 'Yes' else 0` /
`1 if gender == 'Male' else 0`, then age, grade, approved units, in the
source's order. -/
def input_df (tuition debtor gender scholarship : String)
    (age grade units : ℚ) : List ℚ :=
  [if tuition = "Yes" then 1 else 0,
   if debtor = "Yes" then 1 else 0,
   if gender = "Male" then 1 else 0,
   if scholarship = "Yes" then 1 else 0,
   age, grade, units]

/-- The column labels of `input_df` (app.py 460-464), in order. -/
def input_columns : List String :=
  ["Tuition Fees Up-to-Date", "Is Debtor", "Gender (1=Male, 0=Female)",
   "Scholarship Holder", "Age at Enrollment", "Average Grade (2nd Sem)",
   "Approved Units (1st Sem)"]

/-- What the prediction view surfaces (app.py 469-482): whether the row is
flagged as dropout risk (`pred == 1`), the gauge title, and the gauge
number `prob * 100` where `prob = model.predict_proba(input_df).max()`. -/
structure GaugeResult where
  flagged_risk : Bool
  title : String
  gaugeValue : ℚ
deriving DecidableEq

/-- `pred = model.predict(input_df)[0]`, `prob = predict_proba(...).max()`,
`is_risk = pred == 1`, `title = "Dropout Risk" if is_risk else
"Success Prob."`, gauge `value = prob * 100` (app.py 469-481). -/
def run_prediction (m : PModel) (input : List ℚ) : GaugeResult :=
  let pred := (m.predict input).getD 0 0
  let prob := (m.predict_proba input).foldl max 0
  let is_risk := pred == 1
  ⟨is_risk, if is_risk then "Dropout Risk" else "Success Prob.", prob * 100⟩

/-- A stub classifier that always answers class 1 with class probabilities
(0.13, 0.87), so its maximum probability is 0.87. -/
def stubModel : PModel :=
  ⟨fun _ => [1], fun _ => [13 / 100, 87 / 100]⟩

/-! ## Theorems about the credential store -/

/-- C1: for every username `u` not present in the credential store,
`add_user` (with the persistence layer healthy) returns `True`, and a
subsequent `login_user` with the same plaintext on the resulting store
returns a truthy (non-empty) result. -/
theorem register_then_login (db : Store) (u p : String)
    (h : u ∉ usernames db) :
    (add_user .ok db u p).1 = true ∧
    login_ok (add_user .ok db u p).2 u p = true := by
  have hadd : add_user .ok db u p = (true, db ++ [(u, make_hashes p)]) := by
    simp [add_user, h]
  refine ⟨by rw [hadd], ?_⟩
  rw [hadd]
  simp [login_ok, login_user, List.filter_append]

theorem register_then_login_witness :
    "alice" ∉ usernames [] ∧
    ((add_user .ok [] "alice" "secret123").1 = true ∧
     login_ok (add_user .ok [] "alice" "secret123").2 "alice" "secret123"
       = true) :=
  ⟨by decide, register_then_login [] "alice" "secret123" (by decide)⟩

/-- C2: on a store whose usernames are unique (the `PRIMARY KEY`
invariant), `login_user` is truthy iff a record exists whose username is
`u` and whose stored hash is `make_hashes p`; in particular it is falsy
when no record carries username `u`, and falsy for a registered `(u, p)`
queried with any `p'` whose hash differs from `make_hashes p`. -/
theorem login_user_iff (db : Store) (u p : String)
    (hnd : (usernames db).Nodup) :
    (login_ok db u p = true ↔ ∃ r ∈ db, r.1 = u ∧ r.2 = make_hashes p) ∧
    ((∀ r ∈ db, r.1 ≠ u) → login_ok db u p = false) ∧
    (∀ p', (u, make_hashes p) ∈ db →
      make_hashes p' ≠ make_hashes p → login_ok db u p' = false) := by
  have hmain : ∀ q : String,
      login_ok db u q = true ↔ ∃ r ∈ db, r.1 = u ∧ r.2 = make_hashes q := by
    intro q
    simp [login_ok, login_user, List.isEmpty_iff, List.filter_eq_nil_iff]
  refine ⟨hmain p, ?_, ?_⟩
  · intro hno
    rcases Bool.eq_false_or_eq_true (login_ok db u p) with ht | hf
    · rcases (hmain p).mp ht with ⟨r, hr, hru, _⟩
      exact absurd hru (hno r hr)
    · exact hf
  · intro p' hreg hne
    rcases Bool.eq_false_or_eq_true (login_ok db u p') with ht | hf
    · rcases (hmain p').mp ht with ⟨r, hr, hru, hrh⟩
      have : r = (u, make_hashes p) := by
        apply List.inj_on_of_nodup_map hnd hr hreg
        simpa using hru
      rw [this] at hrh
      exact absurd hrh.symm hne
    · exact hf

theorem login_user_iff_witness :
    (usernames [("alice", make_hashes "secret123")]).Nodup ∧
    ((login_ok [("alice", make_hashes "secret123")] "alice" "secret123" = true
        ↔ ∃ r ∈ [("alice", make_hashes "secret123")],
            r.1 = "alice" ∧ r.2 = make_hashes "secret123") ∧
     ((∀ r ∈ [("alice", make_hashes "secret123")], r.1 ≠ "alice") →
        login_ok [("alice", make_hashes "secret123")] "alice" "secret123"
          = false) ∧
     (∀ p', ("alice", make_hashes "secret123")
          ∈ [("alice", make_hashes "secret123")] →
        make_hashes p' ≠ make_hashes "secret123" →
        login_ok [("alice", make_hashes "secret123")] "alice" p' = false)) :=
  ⟨List.nodup_singleton _,
   login_user_iff [("alice", make_hashes "secret123")] "alice" "secret123"
     (List.nodup_singleton _)⟩

/-- C3: for every username `u` already present in the store, `add_user`
returns `False` and the store — the stored hash for `u` and every other
record — is unchanged. -/
theorem add_user_duplicate (db : Store) (u p' : String)
    (h : u ∈ usernames db) :
    add_user .ok db u p' = (false, db) := by
  simp [add_user, h]

theorem add_user_duplicate_witness :
    "alice" ∈ usernames [("alice", "2bb80d5")] ∧
    add_user .ok [("alice", "2bb80d5")] "alice" "other"
      = (false, [("alice", "2bb80d5")]) :=
  ⟨by decide, add_user_duplicate [("alice", "2bb80d5")] "alice" "other"
    (by decide)⟩

/-- C4 counterexample: with an empty store — so no username is a
duplicate — a persistence failure during the insert still makes `add_user`
return `False`: the bare `except:` reports every failure as `False`, not
as a distinct error (the return type carries nothing else). -/
theorem add_user_fault_counterexample :
    "bob" ∉ usernames [] ∧
    add_user .storageError [] "bob" "pw" = (false, []) := by
  constructor
  · decide
  · rfl

/-- C4 amended: `add_user` answers `False` exactly when the persistence
layer fails or the username is a duplicate; a non-duplicate persistence
failure is indistinguishable from a duplicate for the caller. -/
theorem add_user_false_conditions (fault : DbFault) (db : Store)
    (u p : String) :
    (add_user fault db u p).1 = false ↔
      fault = .storageError ∨ u ∈ usernames db := by
  cases fault
  · by_cases h : u ∈ usernames db <;> simp [add_user, h]
  · simp [add_user]

/-- C5: `create_user_table` (`CREATE TABLE IF NOT EXISTS`) is idempotent
and non-destructive: an existing table with its records is left exactly as
it was, repeated calls change nothing, and after the call the table
exists. -/
theorem create_user_table_idempotent (s : DbState) (db : Store) :
    create_user_table (create_user_table s) = create_user_table s ∧
    create_user_table (some db) = some db ∧
    (create_user_table s).isSome = true := by
  cases s <;> simp [create_user_table]

/-- C6: `login_user` has no side effect — the store it returns is the
store it was given, for every store and every input. -/
theorem login_user_no_side_effect (db : Store) (u p : String) :
    (login_user db u p).2 = db := rfl

/-- C7: `make_hashes` is deterministic — it is a pure function of the
plaintext alone, so two evaluations on the same plaintext yield the same
digest string. -/
theorem make_hashes_deterministic (p q : String) (h : p = q) :
    make_hashes p = make_hashes q := by rw [h]

theorem make_hashes_deterministic_witness :
    "secret123" = "secret123" ∧
    make_hashes "secret123" = make_hashes "secret123" :=
  ⟨rfl, make_hashes_deterministic "secret123" "secret123" rfl⟩

/-! ## Theorems about the dashboard and the prediction tool -/

/-- C8: filtering by the course selection `["Informatics"]` keeps exactly
the rows whose course is `"Informatics"`, and on every non-empty table the
displayed dropout rate is the number of `"Dropout"` rows divided by the
row count, as a percentage formatted to one decimal place. -/
theorem informatics_filter_and_dropout_rate (rows : List Row)
    (_h : rows ≠ []) :
    isinFilter ["Informatics"] Row.course rows
      = rows.filter (fun r => r.course = "Informatics") ∧
    (∀ r, r ∈ isinFilter ["Informatics"] Row.course rows ↔
      r ∈ rows ∧ r.course = "Informatics") ∧
    displayed_dropout_rate rows
      = fmtTenths (100 *
          (rows.countP (fun r => r.status == "Dropout") : ℚ) / rows.length) := by
  have hfil : isinFilter ["Informatics"] Row.course rows
      = rows.filter (fun r => r.course = "Informatics") := by
    simp only [isinFilter, List.isEmpty_cons, Bool.false_eq_true, if_false]
    apply List.filter_congr
    intro r _
    simp
  refine ⟨hfil, ?_, ?_⟩
  · intro r
    rw [hfil]
    simp [List.mem_filter]
  · unfold displayed_dropout_rate dropout_rate
    ring_nf

/-- Scenario table of the specification: two `"Informatics"` rows (one
`"Dropout"`, one `"Graduate"`) and one `"Nursing"` row. -/
def scenarioRows : List Row :=
  [⟨"Informatics", "Portuguese", "Secondary", "Dropout"⟩,
   ⟨"Informatics", "Portuguese", "Secondary", "Graduate"⟩,
   ⟨"Nursing", "Portuguese", "Secondary", "Dropout"⟩]

theorem informatics_filter_and_dropout_rate_witness :
    scenarioRows ≠ [] ∧
    (isinFilter ["Informatics"] Row.course scenarioRows
      = scenarioRows.filter (fun r => r.course = "Informatics") ∧
    (∀ r, r ∈ isinFilter ["Informatics"] Row.course scenarioRows ↔
      r ∈ scenarioRows ∧ r.course = "Informatics") ∧
    displayed_dropout_rate scenarioRows
      = fmtTenths (100 *
          (scenarioRows.countP (fun r => r.status == "Dropout") : ℚ) /
          scenarioRows.length)) :=
  ⟨by decide, informatics_filter_and_dropout_rate scenarioRows (by decide)⟩

/-- C9: the feature vector is assembled in the order (tuition, debtor,
gender, scholarship, age, grade, units) with Yes/Male encoded as 1 and
No/Female as 0, and when the classifier answers class 1 with maximum
probability 0.87 the surfaced result is flagged as dropout risk, titled
"Dropout Risk", with gauge value 87. -/
theorem prediction_scenario (m : PModel)
    (h1 : m.predict (input_df "Yes" "No" "Male" "No" 20 12 5) = [1])
    (h2 : (m.predict_proba (input_df "Yes" "No" "Male" "No" 20 12 5)).foldl
            max 0 = 87 / 100) :
    input_df "Yes" "No" "Male" "No" 20 12 5 = [1, 0, 1, 0, 20, 12, 5] ∧
    run_prediction m (input_df "Yes" "No" "Male" "No" 20 12 5)
      = ⟨true, "Dropout Risk", 87⟩ := by
  constructor
  · simp [input_df]
  · unfold run_prediction
    rw [h1, h2]
    norm_num

theorem prediction_scenario_witness :
    (stubModel.predict (input_df "Yes" "No" "Male" "No" 20 12 5) = [1] ∧
     (stubModel.predict_proba
        (input_df "Yes" "No" "Male" "No" 20 12 5)).foldl max 0 = 87 / 100) ∧
    (input_df "Yes" "No" "Male" "No" 20 12 5 = [1, 0, 1, 0, 20, 12, 5] ∧
     run_prediction stubModel (input_df "Yes" "No" "Male" "No" 20 12 5)
       = ⟨true, "Dropout Risk", 87⟩) :=
  ⟨⟨rfl, by norm_num [stubModel]⟩,
   prediction_scenario stubModel rfl (by norm_num [stubModel])⟩

/-- C10: an empty selection applies no restriction — each `if sel:` guard
skips its filter when the selection list is empty, so with all three
selections empty the filtered table `df_viz` equals the unfiltered table,
and an empty selection for any single filter leaves only the other two
filters applied. -/
theorem empty_selection_no_restriction (rows : List Row)
    (selC selN selQ : List String) :
    (∀ col, isinFilter [] col rows = rows) ∧
    df_viz rows [] selN selQ
      = isinFilter selQ Row.prevQual (isinFilter selN Row.nationality rows) ∧
    df_viz rows selC [] selQ
      = isinFilter selQ Row.prevQual (isinFilter selC Row.course rows) ∧
    df_viz rows selC selN []
      = isinFilter selN Row.nationality (isinFilter selC Row.course rows) ∧
    df_viz rows [] [] [] = rows := by
  refine ⟨fun col => rfl, ?_, ?_, ?_, rfl⟩ <;> simp [df_viz, isinFilter]

end StudentApp
